import Mathlib

/-!
# Verification of the wohnungssuche scrape-dedup-persist-notify pipeline

Shallow embedding of the core pipeline of the `wohnungssuche` repository:
`utils.py` (retry decorator, `analyze_description`), `scraper.py`
(`check_search_results`, the retry-wrapped description fetch),
`database.py` (`ListingRepository` operations over a row store),
`service.py` (`ApartmentService.process_listing`,
`ApartmentService.search_apartments`, `ApartmentSearchRunner._search_loop`).

External effects (Selenium element lookups, database connectivity, Telegram
delivery) are modelled by explicit outcome oracles (`Option`/`Except` values
supplied in an environment record); the control flow around them is
translated statement by statement from the Python source.
-/

namespace Wohnungssuche

/-! ## Python string helpers

Python semantics used by the source: truthiness of strings, `str.lower`,
substring membership (`in`), `str.strip`, `str.rstrip('.')`. -/

/-- Python `str.lower()` for one character: the Unicode simple lowercase
mapping, given here on the Basic Latin block (`A`–`Z`) and the Latin-1
Supplement block (`À`–`Þ` except the multiplication sign `×`; `ß` has no
simple lowercase and stays itself).  These blocks cover the program's
input domain — German listing text and the configured negative keywords
(`'keine leistungsempfänger'`, `'nur berufstätige'`, …) — so in
particular the capital umlauts `Ä`, `Ö`, `Ü` fold to `ä`, `ö`, `ü`
exactly as in Python.  Characters outside these blocks are left
unchanged. -/
def pyCharLower (c : Char) : Char :=
  let n := c.toNat
  if 0x41 ≤ n ∧ n ≤ 0x5A then Char.ofNat (n + 0x20)
  else if (0xC0 ≤ n ∧ n ≤ 0xD6) ∨ (0xD8 ≤ n ∧ n ≤ 0xDE) then Char.ofNat (n + 0x20)
  else c

/-- Python `s.lower()`, modelled characterwise by `pyCharLower`. -/
def pyLower (s : String) : String := ⟨s.data.map pyCharLower⟩

/-- Boolean test that `needle` occurs as a contiguous sublist of `hay`. -/
def listInfixOf (needle : List Char) : List Char → Bool
  | [] => needle.isEmpty
  | c :: rest => needle.isPrefixOf (c :: rest) || listInfixOf needle rest

/-- Python `needle in hay` for strings: substring containment. -/
def strContains (hay needle : String) : Bool := listInfixOf needle.data hay.data

/-- Python `s.strip()`: drop leading and trailing whitespace (list-based so
that it reduces in the kernel). -/
def pyStrip (s : String) : String :=
  ⟨((s.data.dropWhile Char.isWhitespace).reverse.dropWhile Char.isWhitespace).reverse⟩

/-- Python `s.rstrip('.')`: drop trailing `'.'` characters. -/
def rstripDot (s : String) : String := ⟨(s.data.reverse.dropWhile (· == '.')).reverse⟩

/-! ## `utils.analyze_description` -/

/-- `utils.analyze_description(description, negative_keywords)`.
The description is `Option String` so that Python `None` and the empty
string (both falsy) are representable. -/
def analyze_description (description : Option String) (negative_keywords : List String) :
    Bool × List String :=
  match description with
  | none => (true, [])
  | some d =>
    if d.isEmpty then (true, [])
    else
      let description_lower := pyLower d
      let matched_keywords :=
        negative_keywords.filter (fun keyword => strContains description_lower (pyLower keyword))
      (matched_keywords.isEmpty, matched_keywords)

/-- A keyword occurs case-insensitively as a substring of a description. -/
def occursIn (keyword d : String) : Bool := strContains (pyLower d) (pyLower keyword)

/-! ## `utils.retry`

`retry(max_retries, delay)` wraps an operation in
`for attempt in range(max_retries + 1): try ... except: sleep(delay)` and
re-raises the last exception after the final attempt.  The wrapped operation
is an oracle `op : Nat → Except String α` giving the outcome of each attempt;
we additionally return the number of calls made and the list of sleeps. -/

def retryGo {α : Type} (max_retries delay : Nat) (op : Nat → Except String α) :
    Nat → Nat → Option String → Nat → List Nat → Except String α × Nat × List Nat
  | 0, _, last, calls, sleeps => (Except.error (last.getD ""), calls, sleeps)
  | fuel + 1, attempt, _, calls, sleeps =>
    match op attempt with
    | Except.ok a => (Except.ok a, calls + 1, sleeps)
    | Except.error e =>
      if attempt < max_retries then
        retryGo max_retries delay op fuel (attempt + 1) (some e) (calls + 1) (sleeps ++ [delay])
      else
        (Except.error e, calls + 1, sleeps)

/-- The `retry(max_retries, delay)` decorator applied to `op`:
result, total number of invocations of `op`, sequence of sleep durations. -/
def retryCall {α : Type} (max_retries delay : Nat) (op : Nat → Except String α) :
    Except String α × Nat × List Nat :=
  retryGo max_retries delay op (max_retries + 1) 0 none 0 []

/-! ## Numeric parsing used by `scraper.check_search_results`

The scraper cleans element text with `re.sub(r'[^\d.,]', '', text)` followed
by `.replace(',', '.')` and feeds the result to Python `float`.  After the
cleaning, the string consists of digits and dots only; `float` succeeds
exactly when the string has at least one digit and at most one dot
(`float('')`, `float('.')`, `float('1.2.3')` raise `ValueError`). -/

/-- Interpret a list of decimal digits as a natural number. -/
def digitsToNat (cs : List Char) : Nat := cs.foldl (fun a c => 10 * a + (c.toNat - 48)) 0

/-- Python `float` on a cleaned digits-and-dots string; `none` models the
`ValueError` raised on a malformed literal. -/
def pyFloat (s : String) : Option ℚ :=
  let cs := s.data
  if cs.all (fun c => c.isDigit || c == '.') && (cs.count '.').ble 1 && cs.any Char.isDigit then
    let ip := cs.takeWhile (fun c => c ≠ '.')
    let frac := (cs.dropWhile (fun c => c ≠ '.')).drop 1
    some ((digitsToNat ip : ℚ) + (digitsToNat frac : ℚ) / (10 ^ frac.length))
  else none

/-- `re.sub(r'[^\d.,]', '', s).replace(',', '.')`. -/
def cleanNum (s : String) : String :=
  ⟨(s.data.filter (fun c => c.isDigit || c == '.' || c == ',')).map
    (fun c => if c == ',' then '.' else c)⟩

/-! ## Data model: `RawListing`

The `basic_info` dictionary built by `check_search_results`:
`listing_id`/`url` are always present; `price`/`size`/`rooms` are numeric or
`None`; `status` is absent until `process_listing` sets it. -/

structure RawListing where
  listing_id : String
  url : String
  title : String
  price : Option ℚ
  size : Option ℚ
  rooms : Option ℚ
  location : String
  description : String
  status : Option String
deriving Repr, DecidableEq

/-! ## `scraper.check_search_results`

One candidate `article.aditem` element of the rendered results page.  Each
element lookup that the code performs through a bounded `WebDriverWait` (or
`get_attribute`) is modelled by an `Option String`: `none` means the
attribute is absent / the wait timed out (`TimeoutException`,
`NoSuchElementException`, `StaleElementReferenceException` — all of which
make the code `continue` to the next article). -/

structure Article where
  adid : Option String
  href : Option String
  titleEl : Option String
  priceEl : Option String
  simpletags : List String
  locationEl : Option String
  descEl : Option String
deriving Repr

/-- A rendered results page: whether the `breadcrump-summary` element shows
`keine Ergebnisse`, whether the `srchrslt-adtable` container appeared within
the timeout, and the `article.aditem` elements found inside it. -/
structure Page where
  noResultsBanner : Bool
  containerPresent : Bool
  articles : List Article
deriving Repr

/-- The `for tag in simpletags` loop: `'m²' in text` sets `size`,
`elif 'Zi.' in text` strips trailing dots and sets `rooms`; a `ValueError`
from `float` (modelled by `pyFloat = none`) escapes to the per-article
handler, skipping the whole entry (`none`). -/
def scanTags : List String → Option ℚ × Option ℚ → Option (Option ℚ × Option ℚ)
  | [], acc => some acc
  | tag :: rest, (size, rooms) =>
    let text := pyStrip tag
    if strContains text "m²" then
      match pyFloat (cleanNum text) with
      | none => none
      | some v => scanTags rest (some v, rooms)
    else if strContains text "Zi." then
      let cleaned_text := rstripDot text
      match pyFloat (cleanNum cleaned_text) with
      | none => none
      | some v => scanTags rest (size, some v)
    else scanTags rest (size, rooms)

/-- Extraction of one article, following the two nested `try` blocks of
`check_search_results`: a falsy `data-adid` or `data-href` hits `continue`;
a missing title, price or location element raises inside the inner `try`
whose handler also does `continue`; a `float` failure raises to the outer
per-article handler, again `continue`.  Only size/rooms (no matching
simpletag) and the preview description are allowed to stay empty. -/
def extractArticle (a : Article) : Option RawListing :=
  match a.adid with
  | none => none
  | some listing_id =>
    if listing_id.isEmpty then none else
    match a.href with
    | none => none
    | some listing_path =>
      if listing_path.isEmpty then none else
      let listing_url := "https://www.kleinanzeigen.de" ++ listing_path
      match a.titleEl with
      | none => none
      | some t =>
        match a.priceEl with
        | none => none
        | some price_text =>
          match pyFloat (cleanNum (pyStrip price_text)) with
          | none => none
          | some priceVal =>
            match scanTags a.simpletags (none, none) with
            | none => none
            | some (size, rooms) =>
              match a.locationEl with
              | none => none
              | some loc =>
                some { listing_id := listing_id, url := listing_url,
                       title := pyStrip t, price := some priceVal,
                       size := size, rooms := rooms,
                       location := pyStrip loc,
                       description := (a.descEl.map pyStrip).getD "",
                       status := none }

/-- `scraper.check_search_results` on a rendered page: early exits for the
`keine Ergebnisse` banner, a missing results container, and an empty article
list; otherwise each article is extracted independently. -/
def check_search_results (p : Page) : List RawListing :=
  if p.noResultsBanner then []
  else if !p.containerPresent then []
  else if p.articles.isEmpty then []
  else p.articles.filterMap extractArticle

/-! ## `database.ListingRepository`

The durable store is the `listings` table, one `Row` per inserted record.
Each repository method runs inside `DatabaseManager.get_cursor`
(commit on success, rollback and re-raise on failure), so a raising
operation leaves the store unchanged; the caller decides whether that
exception propagates.  Timestamps are abstract `Nat` instants. -/

structure Row where
  listing_id : String
  title : String
  price : Option ℚ
  size : Option ℚ
  rooms : Option ℚ
  location : String
  url : String
  status : String
  description : String
  created_at : Nat
  processed_at : Option Nat
deriving Repr, DecidableEq

/-- `save_listing`: `INSERT INTO listings ... VALUES ...` with
`status = listing_data.get('status', 'new')` and `processed_at` null. -/
def save_listing (now : Nat) (d : RawListing) (store : List Row) : List Row :=
  let status := d.status.getD "new"
  store ++ [{ listing_id := d.listing_id, title := d.title, price := d.price,
              size := d.size, rooms := d.rooms, location := d.location, url := d.url,
              status := status, description := d.description,
              created_at := now, processed_at := none }]

/-- `listing_exists`: `SELECT EXISTS(SELECT 1 FROM listings WHERE listing_id = %s)`. -/
def listing_exists (store : List Row) (listing_id : String) : Bool :=
  store.any (fun r => r.listing_id == listing_id)

/-- `mark_listing_processed`: `UPDATE listings SET processed_at = now WHERE
listing_id = %s` (updates zero rows when the id is absent). -/
def mark_listing_processed (now : Nat) (listing_id : String) (store : List Row) : List Row :=
  store.map (fun r =>
    if r.listing_id == listing_id then { r with processed_at := some now } else r)

/-- `mark_listing_error`: `UPDATE listings SET status = 'error',
processed_at = now, description = 'Error: ' || msg WHERE listing_id = %s`
(updates zero rows when the id is absent). -/
def mark_listing_error (now : Nat) (listing_id : String) (error_message : String)
    (store : List Row) : List Row :=
  store.map (fun r =>
    if r.listing_id == listing_id then
      { r with status := "error", processed_at := some now,
               description := "Error: " ++ error_message }
    else r)

/-! ## `service.ApartmentService.process_listing`

Mutable service state: the durable store, the in-run `processed_ids` cache,
and a counter of notification attempts (each `await
notifier.send_listing_notification(...)` call). -/

structure World where
  store : List Row
  cache : List String
  notifyCount : Nat
deriving Repr, DecidableEq

structure Stats where
  total_found : Nat
  processed : Nat
  errors : Nat
deriving Repr, DecidableEq

/-- Outcomes of the external operations one `process_listing` call performs,
in program order.  `Except.error msg` models the operation raising an
exception whose `str(e)` is `msg`; `fetchDesc` is the overall outcome of the
retry-wrapped `scraper.get_full_listing_description`. -/
structure ListingEnv where
  fetchDesc : Except String (Option String)
  saveOutcome : Except String Unit
  notifyOutcome : Except String Bool
  markProcessedOutcome : Except String Unit
  markErrorOutcome : Except String Unit
  now : Nat
deriving Repr

/-- The `except Exception as e:` handler of `process_listing`:
`if basic_info.get('listing_id'): mark_listing_error(...)`, then
`return False`.  If `mark_listing_error` itself raises, that exception
propagates out of `process_listing`. -/
def processErrorPath (env : ListingEnv) (basic_info : RawListing) (e : String) (w : World) :
    Except String Bool × World :=
  if basic_info.listing_id.isEmpty then (Except.ok false, w)
  else
    match env.markErrorOutcome with
    | Except.error e2 => (Except.error e2, w)
    | Except.ok _ =>
      (Except.ok false,
       { w with store := mark_listing_error env.now basic_info.listing_id e w.store })

/-- `ApartmentService.process_listing`: dedup check against the in-run cache
and the durable store, then fetch the full description, set
`status = 'suitable'`, save, notify (when a notifier is configured), mark
processed and add to the cache; any exception inside the `try` goes through
`processErrorPath`. -/
def process_listing (notifierConfigured : Bool) (env : ListingEnv) (basic_info : RawListing)
    (w : World) : Except String Bool × World :=
  let listing_id := basic_info.listing_id
  if w.cache.contains listing_id || listing_exists w.store listing_id then
    (Except.ok false, w)
  else
    match env.fetchDesc with
    | Except.error e => processErrorPath env basic_info e w
    | Except.ok full_description =>
      let basic_info :=
        match full_description with
        | some d => if d.isEmpty then basic_info else { basic_info with description := d }
        | none => basic_info
      let basic_info := { basic_info with status := some "suitable" }
      match env.saveOutcome with
      | Except.error e => processErrorPath env basic_info e w
      | Except.ok _ =>
        let w1 : World := { w with store := save_listing env.now basic_info w.store }
        let notifyStep : Except String Unit × World :=
          if notifierConfigured then
            let w2 : World := { w1 with notifyCount := w1.notifyCount + 1 }
            match env.notifyOutcome with
            | Except.error e => (Except.error e, w2)
            | Except.ok _ => (Except.ok (), w2)
          else (Except.ok (), w1)
        match notifyStep with
        | (Except.error e, w2) => processErrorPath env basic_info e w2
        | (Except.ok _, w2) =>
          match env.markProcessedOutcome with
          | Except.error e => processErrorPath env basic_info e w2
          | Except.ok _ =>
            (Except.ok true,
             { w2 with store := mark_listing_processed env.now listing_id w2.store,
                       cache := w2.cache ++ [listing_id] })

/-! ## `service.ApartmentService.search_apartments`

One search cycle.  `initOutcome n` is the outcome of attempt `n`'s session
setup (`ApartmentScraper()` construction, `driver.get` of the homepage and
`handle_consent_banner`, whose failure is re-raised); `pages` gives, per
configured search URL, either the list returned by `check_search_results`
or an exception escaping that call; `lenv` gives each listing's external
outcomes.  After a successful setup nothing in the per-URL and per-listing
loops can escape the session-level `try` (both loops catch `Exception`),
so one body run completes the cycle. -/

structure CycleEnv where
  initOutcome : Nat → Except String Unit
  pages : List (Except String (List RawListing))
  lenv : RawListing → ListingEnv
  notifierConfigured : Bool

/-- Inner loop body: `await self.process_listing(...)` then
`stats['processed'] += 1`, with `except Exception: stats['errors'] += 1`,
then `await asyncio.sleep(1)`. -/
def runListing (env : CycleEnv) (acc : Stats × World × List Nat) (basic_info : RawListing) :
    Stats × World × List Nat :=
  let (stats, w, sleeps) := acc
  match process_listing env.notifierConfigured (env.lenv basic_info) basic_info w with
  | (Except.ok _, w') => ({ stats with processed := stats.processed + 1 }, w', sleeps ++ [1])
  | (Except.error _, w') => ({ stats with errors := stats.errors + 1 }, w', sleeps ++ [1])

/-- Per search URL: `check_search_results`, `total_found += len`, the inner
listing loop; `except Exception: stats['errors'] += 1`; then
`await asyncio.sleep(2)`. -/
def runPage (env : CycleEnv) (acc : Stats × World × List Nat)
    (page : Except String (List RawListing)) : Stats × World × List Nat :=
  let (stats, w, sleeps) := acc
  match page with
  | Except.error _ => ({ stats with errors := stats.errors + 1 }, w, sleeps ++ [2])
  | Except.ok listings_data =>
    let stats := { stats with total_found := stats.total_found + listings_data.length }
    let (stats', w', sleeps') := listings_data.foldl (runListing env) (stats, w, sleeps)
    (stats', w', sleeps' ++ [2])

/-- The `with ApartmentScraper() as scraper:` body after a successful
session setup: the loop over `config.SEARCH_URLS`. -/
def runBody (env : CycleEnv) (stats : Stats) (w : World) : Stats × World × List Nat :=
  env.pages.foldl (runPage env) (stats, w, [])

/-- The `while scraper_retry_count < max_scraper_retries:` retry loop of
`search_apartments` (`max_scraper_retries = 3`).  `fuel` is
`3 - scraper_retry_count`, so the recursion terminates; on a setup failure
the count is incremented and, if still below the bound, a 10-second sleep
precedes the next attempt.  Returns the final statistics, the final service
state, the sleeps performed at the retry level together with those of the
body run, and the number of session-setup attempts made. -/
def searchGo (env : CycleEnv) :
    Nat → Nat → Stats → World → List Nat → Nat → Stats × World × List Nat × Nat
  | 0, _, stats, w, sleeps, attempts => (stats, w, sleeps, attempts)
  | fuel + 1, scraper_retry_count, stats, w, sleeps, attempts =>
    match env.initOutcome scraper_retry_count with
    | Except.ok _ =>
      let (stats', w', bodySleeps) := runBody env stats w
      (stats', w', sleeps ++ bodySleeps, attempts + 1)
    | Except.error _ =>
      let count := scraper_retry_count + 1
      if 3 ≤ count then (stats, w, sleeps, attempts + 1)
      else searchGo env fuel count stats w (sleeps ++ [10]) (attempts + 1)

/-- `ApartmentService.search_apartments`: statistics start at zero and the
cycle always returns them (never raises). -/
def search_apartments (env : CycleEnv) (w : World) : Stats × World × List Nat × Nat :=
  searchGo env 3 0 ⟨0, 0, 0⟩ w [] 0

/-! ## `service.ApartmentSearchRunner._search_loop`

One iteration of the continuous loop, given the current
`consecutive_failures` counter and the outcome of
`await self.apartment_service.search_apartments()`: the new counter and the
sleeps performed before the next iteration (`CHECK_INTERVAL * 2` extra
sleep when the counter reaches `max_consecutive_failures = 3`, then always
the normal `CHECK_INTERVAL` wait). -/
def loopStep (interval : Nat) (consecutive_failures : Nat) (outcome : Except String Stats) :
    Nat × List Nat :=
  match outcome with
  | Except.ok _ =>
    ((if 0 < consecutive_failures then 0 else consecutive_failures), [interval])
  | Except.error _ =>
    let f := consecutive_failures + 1
    if 3 ≤ f then (0, [interval * 2, interval])
    else (f, [interval])

/-- Iterated loop steps over a sequence of cycle outcomes: final counter and
the per-iteration sleep lists. -/
def loopRun (interval : Nat) : Nat → List (Except String Stats) → Nat × List (List Nat)
  | f, [] => (f, [])
  | f, o :: os =>
    let (f', s) := loopStep interval f o
    let (fEnd, rest) := loopRun interval f' os
    (fEnd, s :: rest)

/-! ## Concrete scenario data -/

/-- An always-failing description fetch attempt (timeout on every call). -/
def alwaysTimeout : Nat → Except String (Option String) := fun _ => Except.error "timeout"

/-! ## Theorems -/

/-- C10: `analyze_description` returns `(true, [])` for every null or empty
description; otherwise it is suitable exactly when no negative keyword
occurs case-insensitively as a substring of the description, and it returns
precisely the list of keywords that do occur. -/
theorem analyze_description_spec (negative_keywords : List String) (d : String) :
    analyze_description none negative_keywords = (true, []) ∧
    (d.isEmpty → analyze_description (some d) negative_keywords = (true, [])) ∧
    (¬ d.isEmpty →
      ((analyze_description (some d) negative_keywords).1 = true ↔
        ∀ k ∈ negative_keywords, occursIn k d = false) ∧
      (analyze_description (some d) negative_keywords).2 =
        negative_keywords.filter (fun k => occursIn k d)) := by
  refine ⟨rfl, ?_, ?_⟩
  · intro h
    simp [analyze_description, h]
  · intro h
    constructor
    · simp [analyze_description, h, occursIn, List.isEmpty_iff, List.filter_eq_nil_iff]
    · simp [analyze_description, h, occursIn]

/-- Witness for `analyze_description_spec` at a concrete nonempty
description, exercising the case-insensitive umlaut fold (`Ä` → `ä`) on a
configured negative keyword. -/
theorem analyze_description_spec_witness :
    ¬ ("KEINE LEISTUNGSEMPFÄNGER" : String).isEmpty ∧
      ((analyze_description (some "KEINE LEISTUNGSEMPFÄNGER")
          ["keine leistungsempfänger"]).1 = true ↔
        ∀ k ∈ ["keine leistungsempfänger"],
          occursIn k "KEINE LEISTUNGSEMPFÄNGER" = false) :=
  ⟨by decide,
   ((analyze_description_spec ["keine leistungsempfänger"]
      "KEINE LEISTUNGSEMPFÄNGER").2.2 (by decide)).1⟩

/-- C7 counterexample: with `max_retries = 3`, an operation that always
fails is invoked 4 times (one initial attempt plus 3 retries), not 3. -/
theorem retry_four_attempts_counterexample :
    (retryCall 3 2 alwaysTimeout).2.1 = 4 ∧ (retryCall 3 2 alwaysTimeout).2.1 ≠ 3 := by
  decide

/-- C7 (amended): `get_full_listing_description` is wrapped in
`retry(max_retries=3, delay=2)`, which invokes the operation up to 4 times
(one initial attempt plus 3 retries) with a fixed 2-second sleep between
consecutive attempts; after the last failed attempt it re-raises the last
failure rather than returning null. -/
theorem retry_exhaustion_reraises (op : Nat → Except String (Option String)) (es : Nat → String)
    (h : ∀ n, op n = Except.error (es n)) :
    retryCall 3 2 op = (Except.error (es 3), 4, [2, 2, 2]) := by
  simp [retryCall, retryGo, h]

/-- Witness for `retry_exhaustion_reraises` on an always-timing-out
operation. -/
theorem retry_exhaustion_reraises_witness :
    retryCall 3 2 alwaysTimeout = (Except.error "timeout", 4, [2, 2, 2]) :=
  retry_exhaustion_reraises alwaysTimeout (fun _ => "timeout") (fun _ => rfl)

/-- A fully extractable article (all inner element waits succeed and the
price text parses). -/
def articleGood : Article :=
  { adid := some "777", href := some "/s-anzeige/g/777", titleEl := some "Wohnung G",
    priceEl := some "500 €", simpletags := ["75 m²", "3 Zi."], locationEl := some "Bremen",
    descEl := some "preview G" }

/-- An article whose price element never appears (the price
`WebDriverWait` times out); everything else is present. -/
def articleNoPrice : Article :=
  { adid := some "333", href := some "/s-anzeige/z/333", titleEl := some "Wohnung C",
    priceEl := none, simpletags := ["70 m²", "3 Zi."], locationEl := some "Bremen",
    descEl := some "preview C" }

/-- An article lacking the `data-adid` attribute. -/
def articleNoId : Article :=
  { adid := none, href := some "/s-anzeige/n/888", titleEl := some "Wohnung N",
    priceEl := some "450 €", simpletags := [], locationEl := some "Bremen",
    descEl := some "preview N" }

/-- A results page whose single candidate entry lacks a price element. -/
def pageNoPrice : Page :=
  { noResultsBanner := false, containerPresent := true, articles := [articleNoPrice] }

/-- A results page with two candidate entries, one of which lacks a
`listing_id`. -/
def pageOneBad : Page :=
  { noResultsBanner := false, containerPresent := true, articles := [articleGood, articleNoId] }

/-- If every element of a list is mapped to `some`, `filterMap` keeps the
length. -/
theorem length_filterMap_of_isSome {α β : Type} (f : α → Option β) (l : List α)
    (h : ∀ x ∈ l, (f x).isSome) : (l.filterMap f).length = l.length := by
  induction l with
  | nil => simp
  | cons a t ih =>
    have ha := h a (by simp)
    match hfa : f a with
    | none => rw [hfa] at ha; simp at ha
    | some b =>
      simp only [List.filterMap_cons, hfa, List.length_cons]
      rw [ih (fun x hx => h x (by simp [hx]))]

/-- C6 counterexample: an entry whose optional price element is missing is
skipped entirely — the page with one such entry yields 0 RawListings, not
one record with a null price. -/
theorem missing_price_skips_entry_counterexample :
    check_search_results pageNoPrice = [] ∧ (check_search_results pageNoPrice).length ≠ 1 := by
  decide

/-- C6 (amended): extraction is entry-scoped, but only size, rooms and the
preview description are optional: a missing size/rooms simpletag yields null
for that field without aborting the record, while a missing title, price or
location element — like a missing `listing_id` or URL — causes that single
entry (and only that entry) to be skipped.  A page where exactly one of N
candidate entries lacks a `listing_id` yields exactly N−1 RawListings. -/
theorem extraction_entry_scoped (a : Article) (p : Page) (as bs : List Article) (bad : Article)
    (idv pathv t pt loc : String) (pv : ℚ) :
    (a.priceEl = none → extractArticle a = none) ∧
    (a.adid = some idv → idv.isEmpty = false → a.href = some pathv → pathv.isEmpty = false →
      a.titleEl = some t → a.priceEl = some pt → pyFloat (cleanNum (pyStrip pt)) = some pv →
      a.simpletags = [] → a.locationEl = some loc →
      ∃ r, extractArticle a = some r ∧ r.size = none ∧ r.rooms = none ∧
        r.price = some pv ∧ r.listing_id = idv) ∧
    (p.noResultsBanner = false → p.containerPresent = true →
      p.articles = as ++ bad :: bs → bad.adid = none →
      (∀ x ∈ as, (extractArticle x).isSome) → (∀ x ∈ bs, (extractArticle x).isSome) →
      (check_search_results p).length = p.articles.length - 1) := by
  refine ⟨?_, ?_, ?_⟩
  · intro hp
    unfold extractArticle
    cases ha : a.adid with
    | none => rfl
    | some i =>
      cases hi : i.isEmpty with
      | true => simp [hi]
      | false =>
        cases hh : a.href with
        | none => simp [hi]
        | some ph =>
          cases hph : ph.isEmpty with
          | true => simp [hi, hph]
          | false =>
            cases ht : a.titleEl with
            | none => simp [hi, hph]
            | some tt => simp [hi, hph, hp]
  · intro h1 h2 h3 h4 h5 h6 h7 h8 h9
    refine ⟨{ listing_id := idv, url := "https://www.kleinanzeigen.de" ++ pathv,
              title := pyStrip t, price := some pv, size := none, rooms := none,
              location := pyStrip loc, description := (a.descEl.map pyStrip).getD "",
              status := none }, ?_, rfl, rfl, rfl, rfl⟩
    unfold extractArticle
    simp only [h1, h2, h3, h4, h5, h6, h7, h8, h9, scanTags, Bool.false_eq_true, if_false]
  · intro hb hc harts hbad has hbs
    unfold check_search_results
    rw [hb, hc, harts]
    have hnonempty : (as ++ bad :: bs).isEmpty = false := by
      cases as <;> simp
    rw [hnonempty]
    have hbadskip : extractArticle bad = none := by
      unfold extractArticle; rw [hbad]
    simp only [Bool.not_true, Bool.false_eq_true, if_false, List.filterMap_append,
      List.filterMap_cons, hbadskip, List.length_append, List.length_cons]
    rw [length_filterMap_of_isSome _ as has, length_filterMap_of_isSome _ bs hbs]
    omega

/-- Witness for `extraction_entry_scoped`: the page with one good entry and
one entry lacking `data-adid` yields exactly one RawListing. -/
theorem extraction_entry_scoped_witness :
    (check_search_results pageOneBad).length = pageOneBad.articles.length - 1 :=
  (extraction_entry_scoped articleNoPrice pageOneBad [articleGood] [] articleNoId
      "" "" "" "" "" 0).2.2 rfl rfl rfl rfl (by decide) (by decide)

deriving instance DecidableEq for Except

/-- An `UPDATE ... WHERE listing_id = id` against a store with no row for
`id` changes nothing. -/
theorem mark_listing_error_absent (now : Nat) (id msg : String) (store : List Row)
    (h : listing_exists store id = false) : mark_listing_error now id msg store = store := by
  induction store with
  | nil => rfl
  | cons r t ih =>
    unfold listing_exists at h ih
    simp only [List.any_cons, Bool.or_eq_false_iff] at h
    unfold mark_listing_error
    simp only [List.map_cons, h.1, Bool.false_eq_true, if_false]
    rw [show t.map _ = mark_listing_error now id msg t from rfl, ih h.2]

/-- A fresh listing not yet present in the store or the in-run cache. -/
def lFresh : RawListing :=
  { listing_id := "333", url := "https://www.kleinanzeigen.de/s-anzeige/z/333",
    title := "Wohnung C", price := some 400, size := some 70, rooms := some 3,
    location := "Bremen", description := "preview text", status := none }

/-- Listing environment in which the retry-wrapped description fetch raises
(after its internal retries) and everything else would succeed. -/
def envFetchFails : ListingEnv :=
  { fetchDesc := Except.error "TimeoutException", saveOutcome := Except.ok (),
    notifyOutcome := Except.ok true, markProcessedOutcome := Except.ok (),
    markErrorOutcome := Except.ok (), now := 7 }

/-- Listing environment in which the notifier raises and everything else
would succeed (the fetch returns no full text, keeping the preview). -/
def envNotifyRaises : ListingEnv :=
  { fetchDesc := Except.ok none, saveOutcome := Except.ok (),
    notifyOutcome := Except.error "NetworkError", markProcessedOutcome := Except.ok (),
    markErrorOutcome := Except.ok (), now := 7 }

/-- Listing environment in which every external operation succeeds but the
notifier reports delivery failure by returning `false`, not by raising. -/
def envNotifyFalse : ListingEnv :=
  { fetchDesc := Except.ok none, saveOutcome := Except.ok (),
    notifyOutcome := Except.ok false, markProcessedOutcome := Except.ok (),
    markErrorOutcome := Except.ok (), now := 7 }

/-- Empty service state: no durable rows, empty in-run cache. -/
def emptyWorld : World := { store := [], cache := [], notifyCount := 0 }

/-- C3 counterexample: when the description fetch raises after the adapter's
retries, the Listing Processor does NOT continue with the preview text — it
returns false through the error path, saves nothing and never notifies. -/
theorem fetch_failure_not_soft_counterexample :
    process_listing true envFetchFails lFresh emptyWorld = (Except.ok false, emptyWorld) ∧
    (process_listing true envFetchFails lFresh emptyWorld).1 ≠ Except.ok true ∧
    (process_listing true envFetchFails lFresh emptyWorld).2.store = [] ∧
    (process_listing true envFetchFails lFresh emptyWorld).2.notifyCount = 0 := by
  decide

/-- C3 (amended): a full-description fetch that raises after the adapter's
internal retries is NOT treated as a soft degrade: the exception reaches the
listing-level `except` handler, which invokes `mark_listing_error` (whose
`UPDATE` matches no row, since the dedup check guarantees the listing was
not yet saved) and returns false — the listing is not saved, notified or
marked processed.  Processing continues with the preview description only
when the fetch returns without raising. -/
theorem fetch_failure_errors_listing (cfg : Bool) (env : ListingEnv) (l : RawListing) (w : World)
    (e : String)
    (hcache : w.cache.contains l.listing_id = false)
    (hstore : listing_exists w.store l.listing_id = false)
    (hfetch : env.fetchDesc = Except.error e)
    (hid : l.listing_id.isEmpty = false)
    (hmark : env.markErrorOutcome = Except.ok ()) :
    process_listing cfg env l w = (Except.ok false, w) := by
  unfold process_listing processErrorPath
  simp only [hcache, hstore, hfetch, hid, hmark, Bool.or_self, Bool.false_eq_true, if_false]
  rw [mark_listing_error_absent _ _ _ _ hstore]

/-- Witness for `fetch_failure_errors_listing` at a concrete fresh listing. -/
theorem fetch_failure_errors_listing_witness :
    process_listing true envFetchFails lFresh emptyWorld = (Except.ok false, emptyWorld) :=
  fetch_failure_errors_listing true envFetchFails lFresh emptyWorld "TimeoutException"
    rfl rfl rfl rfl rfl

/-- C4 counterexample: with a configured notifier that raises, the
exception is NOT swallowed by the notification step — the listing-level
handler marks the freshly saved row `'error'`, `mark_processed` is never
reached (the in-run cache stays empty) and `process_listing` returns
false. -/
theorem notify_exception_not_swallowed_counterexample :
    (process_listing true envNotifyRaises lFresh emptyWorld).1 = Except.ok false ∧
    (process_listing true envNotifyRaises lFresh emptyWorld).1 ≠ Except.ok true ∧
    (process_listing true envNotifyRaises lFresh emptyWorld).2.store.map
      (fun r => (r.listing_id, r.status)) = [("333", "error")] ∧
    (process_listing true envNotifyRaises lFresh emptyWorld).2.cache = [] := by
  decide

/-- C4 (amended): with a configured notifier, only the notifier's RETURN
VALUE is swallowed — whatever boolean it returns, `mark_processed` runs,
the id enters the in-run cache and the call returns true.  An EXCEPTION
raised by the notifier, however, escapes to the listing-level handler:
the saved row is marked `'error'` via `mark_listing_error`,
`mark_processed` is not invoked, and the call returns false. -/
theorem notify_outcome_handling (env : ListingEnv) (l : RawListing) (w : World) (b : Bool)
    (e : String)
    (hcache : w.cache.contains l.listing_id = false)
    (hstore : listing_exists w.store l.listing_id = false)
    (hfetch : env.fetchDesc = Except.ok none)
    (hsave : env.saveOutcome = Except.ok ())
    (hmarkP : env.markProcessedOutcome = Except.ok ())
    (hmarkE : env.markErrorOutcome = Except.ok ())
    (hid : l.listing_id.isEmpty = false) :
    (env.notifyOutcome = Except.ok b →
      process_listing true env l w =
        (Except.ok true,
         { store := mark_listing_processed env.now l.listing_id
             (save_listing env.now { l with status := some "suitable" } w.store),
           cache := w.cache ++ [l.listing_id],
           notifyCount := w.notifyCount + 1 })) ∧
    (env.notifyOutcome = Except.error e →
      process_listing true env l w =
        (Except.ok false,
         { store := mark_listing_error env.now l.listing_id e
             (save_listing env.now { l with status := some "suitable" } w.store),
           cache := w.cache,
           notifyCount := w.notifyCount + 1 })) := by
  constructor
  · intro hn
    unfold process_listing
    simp only [hcache, hstore, hfetch, hsave, hn, hmarkP, Bool.or_self, Bool.false_eq_true,
      if_false, if_true]
  · intro hn
    unfold process_listing processErrorPath
    simp only [hcache, hstore, hfetch, hsave, hn, hid, hmarkE, Bool.or_self, Bool.false_eq_true,
      if_false, if_true]

/-- Witness for `notify_outcome_handling`: a notifier returning `false`
still lets the listing reach `Processed`. -/
theorem notify_outcome_handling_witness :
    process_listing true envNotifyFalse lFresh emptyWorld =
      (Except.ok true,
       { store := mark_listing_processed 7 "333"
           (save_listing 7 { lFresh with status := some "suitable" } []),
         cache := ["333"], notifyCount := 1 }) :=
  (notify_outcome_handling envNotifyFalse lFresh emptyWorld false "x"
    rfl rfl rfl rfl rfl rfl rfl).1 rfl

/-- Inserting a fresh listing and marking it processed leaves exactly one
row with its id in the store. -/
theorem one_row_after_process (now1 now2 : Nat) (id : String) (d : RawListing)
    (store : List Row) (hid : d.listing_id = id)
    (h : ∀ r ∈ store, (r.listing_id == id) = false) :
    ((mark_listing_processed now2 id (save_listing now1 d store)).filter
        (fun r => r.listing_id == id)).length = 1 := by
  induction store with
  | nil => simp [save_listing, mark_listing_processed, hid]
  | cons r t ih =>
    have hr := h r (List.mem_cons_self r t)
    have ht : ∀ x ∈ t, (x.listing_id == id) = false :=
      fun x hx => h x (List.mem_cons_of_mem r hx)
    have iht := ih ht
    unfold save_listing mark_listing_processed at iht ⊢
    simp only [List.cons_append, List.map_cons, hr, Bool.false_eq_true, if_false,
      List.filter_cons] at iht ⊢
    exact iht

/-- The fully successful path of `process_listing` for a listing absent
from store and cache: description possibly overwritten, status set to
`'suitable'`, row saved and marked processed, id cached, one notification
attempt when a notifier is configured. -/
theorem process_listing_success (cfg : Bool) (env : ListingEnv) (l : RawListing) (w : World)
    (fd : Option String) (b : Bool)
    (hcache : w.cache.contains l.listing_id = false)
    (hstore : ∀ r ∈ w.store, (r.listing_id == l.listing_id) = false)
    (hfetch : env.fetchDesc = Except.ok fd)
    (hsave : env.saveOutcome = Except.ok ())
    (hnotify : env.notifyOutcome = Except.ok b)
    (hmarkP : env.markProcessedOutcome = Except.ok ()) :
    ∃ desc : String,
      process_listing cfg env l w =
        (Except.ok true,
         { store := mark_listing_processed env.now l.listing_id
             (save_listing env.now { l with description := desc, status := some "suitable" }
               w.store),
           cache := w.cache ++ [l.listing_id],
           notifyCount := if cfg then w.notifyCount + 1 else w.notifyCount }) := by
  have hex : listing_exists w.store l.listing_id = false := by
    unfold listing_exists
    rw [List.any_eq_false]
    intro x hx
    simp [hstore x hx]
  rcases fd with _ | d
  · refine ⟨l.description, ?_⟩
    unfold process_listing
    cases cfg <;>
      simp only [hcache, hex, hfetch, hsave, hnotify, hmarkP, Bool.or_self, Bool.false_eq_true,
        Bool.true_eq_false, if_false, if_true]
  · cases hd : d.isEmpty with
    | true =>
      refine ⟨l.description, ?_⟩
      unfold process_listing
      cases cfg <;>
        simp only [hcache, hex, hfetch, hsave, hnotify, hmarkP, hd, Bool.or_self,
          Bool.false_eq_true, Bool.true_eq_false, if_false, if_true]
    | false =>
      refine ⟨d, ?_⟩
      unfold process_listing
      cases cfg <;>
        simp only [hcache, hex, hfetch, hsave, hnotify, hmarkP, hd, Bool.or_self,
          Bool.false_eq_true, Bool.true_eq_false, if_false, if_true]

/-- Listing environment in which every external operation succeeds. -/
def envAllOk : ListingEnv :=
  { fetchDesc := Except.ok (some "full text"), saveOutcome := Except.ok (),
    notifyOutcome := Except.ok true, markProcessedOutcome := Except.ok (),
    markErrorOutcome := Except.ok (), now := 5 }

/-- C5: for any listing id absent from the durable store and the in-run
cache, a first fully successful `process_listing` call stores exactly one
durable row for it, and a second call with the same RawListing (whatever
its external outcomes would be) returns false via the Skipped transition,
leaving the state untouched — `exists` is true because the store now has a
row for the id and the cache contains it. -/
theorem process_listing_idempotent (cfg : Bool) (env1 env2 : ListingEnv) (l : RawListing)
    (w : World) (fd : Option String) (b : Bool)
    (hcache : w.cache.contains l.listing_id = false)
    (hstore : ∀ r ∈ w.store, (r.listing_id == l.listing_id) = false)
    (hfetch : env1.fetchDesc = Except.ok fd)
    (hsave : env1.saveOutcome = Except.ok ())
    (hnotify : env1.notifyOutcome = Except.ok b)
    (hmarkP : env1.markProcessedOutcome = Except.ok ()) :
    (process_listing cfg env1 l w).1 = Except.ok true ∧
    ((process_listing cfg env1 l w).2.store.filter
        (fun r => r.listing_id == l.listing_id)).length = 1 ∧
    process_listing cfg env2 l (process_listing cfg env1 l w).2 =
      (Except.ok false, (process_listing cfg env1 l w).2) := by
  obtain ⟨desc, heq⟩ :=
    process_listing_success cfg env1 l w fd b hcache hstore hfetch hsave hnotify hmarkP
  refine ⟨by rw [heq], ?_, ?_⟩
  · rw [heq]
    exact one_row_after_process _ _ _ _ _ rfl hstore
  · rw [heq]
    unfold process_listing
    have hc : (w.cache ++ [l.listing_id]).contains l.listing_id = true := by simp
    simp only [hc, Bool.true_or, if_true]

/-- Witness for `process_listing_idempotent` at a concrete fresh listing. -/
theorem process_listing_idempotent_witness :
    (process_listing true envAllOk lFresh emptyWorld).1 = Except.ok true ∧
    ((process_listing true envAllOk lFresh emptyWorld).2.store.filter
        (fun r => r.listing_id == lFresh.listing_id)).length = 1 ∧
    process_listing true envAllOk lFresh (process_listing true envAllOk lFresh emptyWorld).2 =
      (Except.ok false, (process_listing true envAllOk lFresh emptyWorld).2) :=
  process_listing_idempotent true envAllOk envAllOk lFresh emptyWorld (some "full text") true
    rfl (by intro r hr; simp [emptyWorld] at hr) rfl rfl rfl rfl

/-- `process_listing` when `save` raises: the fetch succeeded, the insert
was rolled back, `mark_listing_error`'s `UPDATE` matches no row (the dedup
check guaranteed the id was not yet stored), so the call returns false with
the state unchanged. -/
theorem process_listing_save_failure (cfg : Bool) (env : ListingEnv) (l : RawListing)
    (w : World) (e : String) (fd : Option String)
    (hcache : w.cache.contains l.listing_id = false)
    (hstore : listing_exists w.store l.listing_id = false)
    (hfetch : env.fetchDesc = Except.ok fd)
    (hsave : env.saveOutcome = Except.error e)
    (hid : l.listing_id.isEmpty = false)
    (hmark : env.markErrorOutcome = Except.ok ()) :
    process_listing cfg env l w = (Except.ok false, w) := by
  unfold process_listing processErrorPath
  rcases fd with _ | d
  · simp only [hcache, hstore, hfetch, hsave, hid, hmark, Bool.or_self, Bool.false_eq_true,
      if_false]
    rw [mark_listing_error_absent _ _ _ _ hstore]
  · cases hd : d.isEmpty <;>
    · simp only [hcache, hstore, hfetch, hsave, hid, hmark, hd, Bool.or_self,
        Bool.false_eq_true, if_false, if_true]
      rw [mark_listing_error_absent _ _ _ _ hstore]

/-- Unfolding step of the orchestrator's session-retry loop when the
session setup attempt succeeds: the cycle body runs once and the loop
exits. -/
theorem searchGo_init_ok (env : CycleEnv) (fuel count : Nat) (stats : Stats) (w : World)
    (sleeps : List Nat) (attempts : Nat) (h : env.initOutcome count = Except.ok ()) :
    searchGo env (fuel + 1) count stats w sleeps attempts =
      ((runBody env stats w).1, (runBody env stats w).2.1,
        sleeps ++ (runBody env stats w).2.2, attempts + 1) := by
  conv_lhs => simp only [searchGo]
  rw [h]

/-- Unfolding step of the session-retry loop when the setup attempt
raises: increment the count, stop at the bound of 3, otherwise sleep 10
and try again. -/
theorem searchGo_init_fail (env : CycleEnv) (fuel count : Nat) (stats : Stats) (w : World)
    (sleeps : List Nat) (attempts : Nat) (e : String)
    (h : env.initOutcome count = Except.error e) :
    searchGo env (fuel + 1) count stats w sleeps attempts =
      (if 3 ≤ count + 1 then (stats, w, sleeps, attempts + 1)
       else searchGo env fuel (count + 1) stats w (sleeps ++ [10]) (attempts + 1)) := by
  conv_lhs => simp only [searchGo]
  rw [h]

/-- C2 (amended): if `save` raises for a listing L fresh to store and
cache, the durable store afterwards contains NO row for L (the insert was
rolled back and `mark_listing_error`'s `UPDATE` matches nothing), and the
cycle's `processed` counter — not `errors` — increments by exactly 1,
because `process_listing` swallows the exception and returns false, which
the orchestrator counts as processed. -/
theorem save_failure_behavior (cenv : CycleEnv) (le : ListingEnv) (l : RawListing) (w : World)
    (e : String) (fd : Option String)
    (hinit : cenv.initOutcome 0 = Except.ok ())
    (hpages : cenv.pages = [Except.ok [l]])
    (hlenv : cenv.lenv l = le)
    (hfetch : le.fetchDesc = Except.ok fd)
    (hsave : le.saveOutcome = Except.error e)
    (hmark : le.markErrorOutcome = Except.ok ())
    (hid : l.listing_id.isEmpty = false)
    (hcache : w.cache.contains l.listing_id = false)
    (hstore : listing_exists w.store l.listing_id = false) :
    process_listing cenv.notifierConfigured le l w = (Except.ok false, w) ∧
    search_apartments cenv w =
      ({ total_found := 1, processed := 1, errors := 0 }, w, [1, 2], 1) := by
  have hpl := process_listing_save_failure cenv.notifierConfigured le l w e fd
    hcache hstore hfetch hsave hid hmark
  refine ⟨hpl, ?_⟩
  unfold search_apartments
  show searchGo cenv (2 + 1) 0 ⟨0, 0, 0⟩ w [] 0 = _
  rw [searchGo_init_ok cenv 2 0 ⟨0, 0, 0⟩ w [] 0 hinit]
  unfold runBody
  rw [hpages]
  simp only [List.foldl_cons, List.foldl_nil, runPage, runListing, hlenv, hpl,
    List.length_cons, List.length_nil, List.nil_append]
  rfl

/-- Listing environment in which the durable insert raises and everything
else would succeed. -/
def envSaveFails : ListingEnv :=
  { fetchDesc := Except.ok none, saveOutcome := Except.error "ConstraintViolation",
    notifyOutcome := Except.ok true, markProcessedOutcome := Except.ok (),
    markErrorOutcome := Except.ok (), now := 7 }

/-- Cycle environment: session setup succeeds, one search URL with one
fresh listing whose save raises. -/
def envCycleSaveFails : CycleEnv :=
  { initOutcome := fun _ => Except.ok (), pages := [Except.ok [lFresh]],
    lenv := fun _ => envSaveFails, notifierConfigured := true }

/-- C2 counterexample: when `save` raises for a fresh listing, the durable
store afterwards contains NO row at all (so no `'error'` row for it), the
cycle's `errors` counter stays 0 and `processed` increments to 1 — the
exact opposite of the claimed counter movement. -/
theorem save_failure_no_error_row_counterexample :
    (search_apartments envCycleSaveFails emptyWorld).2.1.store = [] ∧
    (search_apartments envCycleSaveFails emptyWorld).1.errors = 0 ∧
    (search_apartments envCycleSaveFails emptyWorld).1.processed = 1 := by
  decide

/-- Witness for `save_failure_behavior` at the concrete failing-save
scenario. -/
theorem save_failure_behavior_witness :
    process_listing true envSaveFails lFresh emptyWorld = (Except.ok false, emptyWorld) ∧
    search_apartments envCycleSaveFails emptyWorld =
      ({ total_found := 1, processed := 1, errors := 0 }, emptyWorld, [1, 2], 1) :=
  save_failure_behavior envCycleSaveFails envSaveFails lFresh emptyWorld "ConstraintViolation"
    none rfl rfl rfl rfl rfl rfl rfl rfl rfl

/-- Candidate entry `"111"` of the end-to-end scenario page. -/
def articleA : Article :=
  { adid := some "111", href := some "/s-anzeige/a/111", titleEl := some "Wohnung A",
    priceEl := some "400 €", simpletags := ["70 m²", "3 Zi."], locationEl := some "Bremen",
    descEl := some "preview A" }

/-- Candidate entry `"222"` of the end-to-end scenario page. -/
def articleB : Article :=
  { adid := some "222", href := some "/s-anzeige/b/222", titleEl := some "Wohnung B",
    priceEl := some "450 €", simpletags := ["80 m²", "3,5 Zi."], locationEl := some "Bremen",
    descEl := some "preview B" }

/-- The scenario results page with the two candidate entries. -/
def pageTwo : Page :=
  { noResultsBanner := false, containerPresent := true, articles := [articleA, articleB] }

/-- The durable row for `"111"`, already present before the cycle. -/
def row111 : Row :=
  { listing_id := "111", title := "Wohnung A", price := some 400, size := some 70,
    rooms := some 3, location := "Bremen", url := "https://www.kleinanzeigen.de/s-anzeige/a/111",
    status := "suitable", description := "old", created_at := 0, processed_at := some 0 }

/-- Cycle environment of the end-to-end scenario: the session setup
succeeds, the single search URL yields the two-entry page, every external
listing operation succeeds, a notifier is configured. -/
def envCycleTwo : CycleEnv :=
  { initOutcome := fun _ => Except.ok (),
    pages := [Except.ok (check_search_results pageTwo)],
    lenv := fun _ => envAllOk, notifierConfigured := true }

/-- Initial state of the end-to-end scenario: the store already contains
`"111"`. -/
def wWith111 : World := { store := [row111], cache := [], notifyCount := 0 }

/-- A RawListing with the already-stored id `"111"`. -/
def l111 : RawListing :=
  { listing_id := "111", url := "https://www.kleinanzeigen.de/s-anzeige/a/111",
    title := "Wohnung A", price := some 400, size := some 70, rooms := some 3,
    location := "Bremen", description := "preview A", status := none }

/-- C1 counterexample: on the two-entry page with `"111"` already stored,
one orchestrator call yields `total_found = 2` and one notification attempt
as claimed — but `processed = 2`, not 1, because the orchestrator
increments `processed` for the skipped `"111"` as well. -/
theorem orchestrator_processed_two_counterexample :
    (search_apartments envCycleTwo wWith111).1.total_found = 2 ∧
    (search_apartments envCycleTwo wWith111).2.1.notifyCount = 1 ∧
    (search_apartments envCycleTwo wWith111).1.processed = 2 ∧
    (search_apartments envCycleTwo wWith111).1.processed ≠ 1 := by
  decide

/-- C1 (amended): for every RawListing, the orchestrator increments
`processed` whenever the Processor call RETURNS (true for processed, false
for skipped or internally errored listings) and `errors` only when the call
raises; in the two-entry scenario with `"111"` already stored, one call
yields `total_found = 2`, `processed = 2` (only `"222"` newly saved with
status `'suitable'`, row `"111"` untouched) and exactly one notification
attempt. -/
theorem orchestrator_counter_semantics (env : CycleEnv) (stats : Stats) (w : World)
    (sleeps : List Nat) (l : RawListing) :
    (∀ b w', process_listing env.notifierConfigured (env.lenv l) l w = (Except.ok b, w') →
      runListing env (stats, w, sleeps) l =
        ({ stats with processed := stats.processed + 1 }, w', sleeps ++ [1])) ∧
    (∀ e w', process_listing env.notifierConfigured (env.lenv l) l w = (Except.error e, w') →
      runListing env (stats, w, sleeps) l =
        ({ stats with errors := stats.errors + 1 }, w', sleeps ++ [1])) ∧
    (search_apartments envCycleTwo wWith111).1 =
      { total_found := 2, processed := 2, errors := 0 } ∧
    (search_apartments envCycleTwo wWith111).2.1.notifyCount = 1 ∧
    (search_apartments envCycleTwo wWith111).2.1.store.map (fun r => (r.listing_id, r.status)) =
      [("111", "suitable"), ("222", "suitable")] ∧
    (search_apartments envCycleTwo wWith111).2.1.store.head? = some row111 := by
  refine ⟨?_, ?_, by decide, by decide, by decide, by decide⟩
  · intro b w' h
    simp only [runListing, h]
  · intro e w' h
    simp only [runListing, h]

/-- Witness for `orchestrator_counter_semantics`: the skipped listing
`"111"` still increments `processed`. -/
theorem orchestrator_counter_semantics_witness :
    runListing envCycleTwo ({ total_found := 0, processed := 0, errors := 0 }, wWith111, [])
      l111 = ({ total_found := 0, processed := 1, errors := 0 }, wWith111, [1]) :=
  (orchestrator_counter_semantics envCycleTwo
      { total_found := 0, processed := 0, errors := 0 } wWith111 [] l111).1
    false wWith111 (by decide)

/-- C8: if session setup always throws, the orchestrator attempts it
exactly 3 times with a 10-unit sleep between consecutive attempts, then
abandons the cycle by returning normally with `total_found`, `processed`
and `errors` still at their pre-abandon values (the zeros they were
initialised to) and the service state untouched. -/
theorem session_retry_bound (env : CycleEnv) (w : World) (es : Nat → String)
    (hfail : ∀ n, env.initOutcome n = Except.error (es n)) :
    search_apartments env w =
      ({ total_found := 0, processed := 0, errors := 0 }, w, [10, 10], 3) := by
  unfold search_apartments
  show searchGo env (2 + 1) 0 ⟨0, 0, 0⟩ w [] 0 = _
  rw [searchGo_init_fail env 2 0 ⟨0, 0, 0⟩ w [] 0 (es 0) (hfail 0)]
  simp only [Nat.reduceLeDiff, if_false, List.nil_append, show ¬(3 ≤ 0 + 1) by omega]
  show searchGo env (1 + 1) 1 ⟨0, 0, 0⟩ w [10] 1 = _
  rw [searchGo_init_fail env 1 1 ⟨0, 0, 0⟩ w [10] 1 (es 1) (hfail 1)]
  simp only [if_false, show ¬(3 ≤ 1 + 1) by omega]
  show searchGo env (0 + 1) 2 ⟨0, 0, 0⟩ w [10, 10] 2 = _
  rw [searchGo_init_fail env 0 2 ⟨0, 0, 0⟩ w [10, 10] 2 (es 2) (hfail 2)]
  simp only [if_true, show 3 ≤ 2 + 1 by omega]

/-- Cycle environment whose session setup always throws. -/
def envInitFails : CycleEnv :=
  { initOutcome := fun _ => Except.error "SessionNotCreated", pages := [],
    lenv := fun _ => envAllOk, notifierConfigured := true }

/-- Witness for `session_retry_bound` on an always-failing session setup. -/
theorem session_retry_bound_witness :
    search_apartments envInitFails emptyWorld =
      ({ total_found := 0, processed := 0, errors := 0 }, emptyWorld, [10, 10], 3) :=
  session_retry_bound envInitFails emptyWorld (fun _ => "SessionNotCreated") (fun _ => rfl)

/-- C9: in the continuous run loop, three consecutive cycle exceptions
(starting from a clean counter) sleep the normal interval twice and then,
at exactly the third, the doubled interval followed by the normal one,
with the failure counter reset to 0 afterwards; every iteration's final
sleep is the configured interval, and a cycle that completes without an
escaping exception resets the counter to zero. -/
theorem circuit_breaker_backoff (interval f : Nat) (e : String) (s : Stats)
    (o : Except String Stats) :
    loopRun interval 0 [Except.error e, Except.error e, Except.error e] =
      (0, [[interval], [interval], [interval * 2, interval]]) ∧
    (loopStep interval f o).2.getLast? = some interval ∧
    loopStep interval f (Except.ok s) = (0, [interval]) := by
  refine ⟨?_, ?_, ?_⟩
  · simp [loopRun, loopStep]
  · rcases o with e' | s'
    · simp only [loopStep]
      split <;> simp
    · simp [loopStep]
  · unfold loopStep
    rcases Nat.eq_zero_or_pos f with hf | hf
    · subst hf
      simp
    · simp [hf]

end Wohnungssuche
